import Mathlib

/-!
Verification development for the SSTable block I/O core
(`table/format.cc`, `include/rocksdb/status.h`).

Bytes are modelled as `List Nat` with values below 256; machine integers
are `Nat` with explicit `% 2 ^ 32` / `% 2 ^ 64` where C++ truncation can
occur.  C++ slices are modelled as the byte run from the slice's data
pointer to the end of its underlying buffer, so out-of-slice (but
in-buffer) accesses such as `slice.data()[n]` remain meaningful.
Stateful decoders are modelled by explicit state passing.  External
collaborators (the actual CRC32C/XXH32 kernels, the compression codecs,
the file reader, the persistent cache) are universally quantified
parameters or environment records, so the theorems hold for every
possible collaborator behaviour.
-/

namespace RocksModel

/-! ## Status (include/rocksdb/status.h) -/

/-- Status codes, from `Status::Code` in `include/rocksdb/status.h`. -/
inductive StatusCode where
  | kOk
  | kNotFound
  | kCorruption
  | kNotSupported
  | kInvalidArgument
  | kIOError
  | kMergeInProgress
  | kIncomplete
  | kShutdownInProgress
  | kTimedOut
  | kAborted
  | kBusy
  | kExpired
  | kTryAgain
  | kIOPending
deriving DecidableEq, Repr

/-- Status subcodes, from `Status::SubCode` in `include/rocksdb/status.h`
(`kMaxSubCode` is a count, not a constructible subcode). -/
inductive SubCode where
  | kNone
  | kMutexTimeout
  | kLockTimeout
  | kLockLimit
  | kNoSpace
  | kDeadlock
  | kStaleFile
  | kMemoryLimit
  | kOnComplete
deriving DecidableEq, Repr

/-- Modelled from the spec: `Status` carries a code, a subcode, an optional
message (the heap `state_` of the C++ class, whose exact rendering lives in
the missing `status.cc`; two-part messages are joined with a separator), and
the `async_` bit. -/
structure Status where
  code : StatusCode
  subcode : SubCode
  msg : Option String
  async : Bool
deriving DecidableEq, Repr

/-- The success status `Status::OK()`. -/
def Status.okStatus : Status :=
  { code := .kOk, subcode := .kNone, msg := none, async := false }

/-- The status `Status::Corruption(msg)` (single-argument form, empty
second slice). -/
def Status.corruption (m : String) : Status :=
  { code := .kCorruption, subcode := .kNone, msg := some m, async := false }

/-- The status `Status::NotFound()` (subcode fast path, no message). -/
def Status.notFound : Status :=
  { code := .kNotFound, subcode := .kNone, msg := none, async := false }

/-! ## VarInt and fixed-width codec (util/coding, declarations only in src)

Modelled from the spec: the standard 7-bit-per-byte varint scheme (high bit
set on all but the last byte, at most 10 bytes for a u64 and 5 for a u32,
the decoder failing when the cursor ends mid-varint or the shift budget is
exhausted) and little-endian fixed-width 32-bit fields. -/

/-- Modelled from the spec: `PutVarint64`, emitting 7 payload bits per byte
with the continuation bit set on all but the final byte. -/
def putVarint64 (v : Nat) : List Nat :=
  if h : v < 128 then [v]
  else (v % 128 + 128) :: putVarint64 (v / 128)
termination_by v
decreasing_by
  exact Nat.div_lt_self (by omega) (by omega)

/-- Modelled from the spec: the decoding loop of `GetVarint64Ptr`.  `shift`
is the current bit position (the loop stops once it exceeds 63), `acc` the
bits accumulated so far; the 64-bit result is truncated modulo `2 ^ 64`. -/
def getVarint64Aux : List Nat → Nat → Nat → Option (Nat × List Nat)
  | [], _, _ => none
  | b :: rest, shift, acc =>
    if 63 < shift then none
    else if 128 ≤ b then getVarint64Aux rest (shift + 7) (acc + b % 128 * 2 ^ shift)
    else some ((acc + b * 2 ^ shift) % 2 ^ 64, rest)

/-- Modelled from the spec: `GetVarint64` over a cursor; on success the
returned list is the input with the consumed bytes removed, on failure the
cursor is unchanged (the caller keeps the original list). -/
def getVarint64 (input : List Nat) : Option (Nat × List Nat) :=
  getVarint64Aux input 0 0

/-- Modelled from the spec: the decoding loop of `GetVarint32Ptr`, with a
32-bit shift budget (the loop stops once the shift exceeds 28). -/
def getVarint32Aux : List Nat → Nat → Nat → Option (Nat × List Nat)
  | [], _, _ => none
  | b :: rest, shift, acc =>
    if 28 < shift then none
    else if 128 ≤ b then getVarint32Aux rest (shift + 7) (acc + b % 128 * 2 ^ shift)
    else some ((acc + b * 2 ^ shift) % 2 ^ 32, rest)

/-- Modelled from the spec: `GetVarint32` over a cursor. -/
def getVarint32 (input : List Nat) : Option (Nat × List Nat) :=
  getVarint32Aux input 0 0

/-- Modelled from the spec: `PutFixed32`, little-endian. -/
def putFixed32 (v : Nat) : List Nat :=
  [v % 256, v / 2 ^ 8 % 256, v / 2 ^ 16 % 256, v / 2 ^ 24 % 256]

/-- Modelled from the spec: `DecodeFixed32`, little-endian, reading four
bytes starting at the given position (a pointer into a buffer is modelled
as the list from that position on). -/
def decodeFixed32 (l : List Nat) : Nat :=
  l.getD 0 0 + l.getD 1 0 * 2 ^ 8 + l.getD 2 0 * 2 ^ 16 + l.getD 3 0 * 2 ^ 24

/-- Semantics of `std::string::resize(target)` on a byte list: truncate to
`target` bytes, then pad with zero bytes up to `target`. -/
def listResize (l : List Nat) (target : Nat) : List Nat :=
  l.take target ++ List.replicate (target - l.length) 0

/-! ## Checksum transforms (util/crc32c, declarations only in src)

The CRC32C and XXH32 kernels themselves are external; theorems quantify
over them.  Only the mask transform is fixed by the spec. -/

/-- Modelled from the spec: the CRC32C mask transform,
`mask(crc) = ((crc >> 15) | (crc << 17)) + 0xa282ead8 (mod 2 ^ 32)`. -/
def crc32cMask (crc : Nat) : Nat :=
  (crc % 2 ^ 32 / 2 ^ 15 + crc % 2 ^ 15 * 2 ^ 17 + 0xa282ead8) % 2 ^ 32

/-- Modelled from the spec: the inverse of `crc32cMask` — subtract the
constant (in 32-bit arithmetic), then rotate right by 17. -/
def crc32cUnmask (masked : Nat) : Nat :=
  ((masked % 2 ^ 32 + (2 ^ 32 - 0xa282ead8)) % 2 ^ 32) / 2 ^ 17 +
    ((masked % 2 ^ 32 + (2 ^ 32 - 0xa282ead8)) % 2 ^ 32) % 2 ^ 17 * 2 ^ 15

/-! ## Format constants (table/format.h, declarations only in src) -/

/-- Modelled from the spec: maximum encoded length of a block handle
(two 10-byte varints). -/
def kMaxEncodedLength : Nat := 20

/-- Modelled from the spec: encoded length of a legacy (version 0) footer,
`2 * 20 + 8 = 48` bytes. -/
def kVersion0EncodedLength : Nat := 2 * kMaxEncodedLength + 8

/-- Modelled from the spec: encoded length of a current footer,
`1 + 2 * 20 + 4 + 8 = 53` bytes. -/
def kNewVersionsEncodedLength : Nat := 2 * kMaxEncodedLength + 12 + 1

/-- Modelled from the spec: the minimum legal tail to inspect,
`max(legacy, current) = 53` bytes. -/
def kMinEncodedLength : Nat := kNewVersionsEncodedLength

/-- Length in bytes of the trailing magic number. -/
def kMagicNumberLengthByte : Nat := 8

/-- Modelled from the spec: every block is followed by a 5-byte trailer
(1 compression tag byte + 4 checksum bytes). -/
def kBlockTrailerSize : Nat := 5

/-- Modelled from the spec: checksum kind tags (`ChecksumType`); CRC32C is
the default and the only legal legacy kind. -/
def kCRC32c : Nat := 1

/-- Modelled from the spec: the XXH32 checksum kind tag. -/
def kxxHash : Nat := 2

/-- Modelled from the spec: compression tag for an uncompressed block. -/
def kNoCompression : Nat := 0

/-- Modelled from the spec: the four known table magic numbers (declared
`extern` in `table/format.cc`); the concrete values are the well-known
on-disk constants of the format.  Current block-based magic. -/
def kBlockBasedTableMagicNumber : Nat := 0x88e241b785f4cff7

/-- Legacy block-based magic (see `kBlockBasedTableMagicNumber`). -/
def kLegacyBlockBasedTableMagicNumber : Nat := 0xdb4775248b80fb57

/-- Current plain-table magic (non-LITE build; see
`kBlockBasedTableMagicNumber`). -/
def kPlainTableMagicNumber : Nat := 0x8242229663bf9564

/-- Legacy plain-table magic (non-LITE build; see
`kBlockBasedTableMagicNumber`). -/
def kLegacyPlainTableMagicNumber : Nat := 0x4f3418eb7a8f92b8

/-! ## BlockHandle (table/format.cc lines 50-80) -/

/-- A block handle: offset and size of a block, both `u64`.  The
uninitialized sentinel is all-ones (`2 ^ 64 - 1`). -/
structure BlockHandle where
  offset : Nat
  size : Nat
deriving DecidableEq, Repr

/-- The all-ones sentinel marking an uninitialized handle field. -/
def handleSentinel : Nat := 2 ^ 64 - 1

/-- An uninitialized block handle (both fields the all-ones sentinel). -/
def BlockHandle.uninit : BlockHandle :=
  { offset := handleSentinel, size := handleSentinel }

/-- Model of `BlockHandle::EncodeTo`: append `varint64(offset) || varint64(size)`. -/
def blockHandleEncodeTo (h : BlockHandle) : List Nat :=
  putVarint64 h.offset ++ putVarint64 h.size

/-- Model of `BlockHandle::DecodeFrom`: decode two varints into the handle; on
failure reset the handle to `(0, 0)` and return
`Corruption("bad block handle")`.  Returns the status, the resulting
handle state, and the remaining cursor (the C++ `Slice` is only advanced
past each varint that decoded successfully). -/
def blockHandleDecodeFrom (h : BlockHandle) (input : List Nat) :
    Status × BlockHandle × List Nat :=
  match getVarint64 input with
  | some (o, rest1) =>
    match getVarint64 rest1 with
    | some (s, rest2) => (Status.okStatus, { offset := o, size := s }, rest2)
    | none => (Status.corruption "bad block handle", { offset := 0, size := 0 }, rest1)
  | none => (Status.corruption "bad block handle", { offset := 0, size := 0 }, input)

/-! ## Footer (table/format.cc lines 82-196) -/

/-- Model of `IsLegacyFooterFormat` (table/format.cc line 83). -/
def isLegacyFooterFormat (magic : Nat) : Bool :=
  magic = kLegacyBlockBasedTableMagicNumber ∨ magic = kLegacyPlainTableMagicNumber

/-- Model of `UpconvertLegacyFooterFormat` (table/format.cc line 87); the
`assert(false)` fallthrough returns 0. -/
def upconvertLegacyFooterFormat (magic : Nat) : Nat :=
  if magic = kLegacyBlockBasedTableMagicNumber then kBlockBasedTableMagicNumber
  else if magic = kLegacyPlainTableMagicNumber then kPlainTableMagicNumber
  else 0

/-- The footer state: version, checksum kind, the two handles, and the
table magic number. -/
structure Footer where
  version : Nat
  checksum : Nat
  metaindexHandle : BlockHandle
  indexHandle : BlockHandle
  tableMagicNumber : Nat
deriving DecidableEq, Repr

/-- Modelled from the spec: a fully uninitialized footer (the state before
`DecodeFrom`): magic number not yet initialized (zero), default CRC32C
checksum, version 0, both handles at the all-ones sentinel. -/
def Footer.uninit : Footer :=
  { version := 0, checksum := kCRC32c, metaindexHandle := BlockHandle.uninit,
    indexHandle := BlockHandle.uninit, tableMagicNumber := 0 }

/-- Model of `Footer::EncodeTo` (table/format.cc lines 111-134): the bytes appended
to `dst`.  Legacy branch pads the two handles to 40 bytes and appends the
magic split into two little-endian 32-bit halves (48 bytes total); the
current branch prepends the checksum byte and also appends the 32-bit
version (53 bytes total). -/
def footerEncodeTo (f : Footer) : List Nat :=
  if isLegacyFooterFormat f.tableMagicNumber then
    listResize (blockHandleEncodeTo f.metaindexHandle ++ blockHandleEncodeTo f.indexHandle)
        (2 * kMaxEncodedLength) ++
      putFixed32 (f.tableMagicNumber % 2 ^ 32) ++
      putFixed32 (f.tableMagicNumber / 2 ^ 32 % 2 ^ 32)
  else
    listResize (f.checksum % 256 ::
        (blockHandleEncodeTo f.metaindexHandle ++ blockHandleEncodeTo f.indexHandle))
        (kNewVersionsEncodedLength - 12) ++
      putFixed32 (f.version % 2 ^ 32) ++
      putFixed32 (f.tableMagicNumber % 2 ^ 32) ++
      putFixed32 (f.tableMagicNumber / 2 ^ 32 % 2 ^ 32)

/-- The raw magic number at the last 8 bytes of the input,
`(hi << 32) | lo` (table/format.cc lines 149-154). -/
def footerRawMagic (input : List Nat) : Nat :=
  decodeFixed32 (input.drop (input.length - 4)) * 2 ^ 32 +
    decodeFixed32 (input.drop (input.length - kMagicNumberLengthByte))

/-- The magic number `Footer::DecodeFrom` stores: the raw wire magic,
silently upconverted when legacy (table/format.cc lines 156-161). -/
def footerWireMagic (input : List Nat) : Nat :=
  if isLegacyFooterFormat (footerRawMagic input) then
    upconvertLegacyFooterFormat (footerRawMagic input)
  else footerRawMagic input

/-- Result of `Footer::DecodeFrom`: the returned status, the footer state
after the call, and the state of the input cursor. -/
structure FooterDecodeResult where
  status : Status
  footer : Footer
  rest : List Nat
deriving DecidableEq, Repr

/-- The tail of `Footer::DecodeFrom` (table/format.cc lines 186-195):
decode the metaindex handle, then (only if that succeeded) the index
handle; on full success the caller's cursor is moved past the magic (an
empty suffix of the original input). -/
def footerDecodeHandles (f : Footer) (input : List Nat) : FooterDecodeResult :=
  let r1 := blockHandleDecodeFrom f.metaindexHandle input
  if r1.1.code = StatusCode.kOk then
    let r2 := blockHandleDecodeFrom f.indexHandle r1.2.2
    if r2.1.code = StatusCode.kOk then
      { status := r2.1,
        footer := { f with metaindexHandle := r1.2.1, indexHandle := r2.2.1 },
        rest := [] }
    else
      { status := r2.1,
        footer := { f with metaindexHandle := r1.2.1, indexHandle := r2.2.1 },
        rest := r2.2.2 }
  else
    { status := r1.1, footer := { f with metaindexHandle := r1.2.1 }, rest := r1.2.2 }

/-- Model of `Footer::DecodeFrom` (table/format.cc lines 144-196).  Reads the magic
from the final 8 bytes, upconverts legacy magics, then either takes the
last 48 bytes (legacy: version 0, CRC32C) or the last 53 bytes (current:
version from the 4 bytes before the magic, checksum kind read as a
varint32), and finally decodes the two handles.  Debug-build assertions
(`input->size() >= kMinEncodedLength`, uninitialized magic) are no-ops in
release and are not modelled as guards. -/
def footerDecodeFrom (f : Footer) (input : List Nat) : FooterDecodeResult :=
  let len := input.length
  let magic := footerWireMagic input
  if isLegacyFooterFormat (footerRawMagic input) then
    footerDecodeHandles
      { f with tableMagicNumber := magic, version := 0, checksum := kCRC32c }
      (input.drop (len - kVersion0EncodedLength))
  else
    let f1 := { f with tableMagicNumber := magic,
                       version := decodeFixed32 (input.drop (len - 12)) }
    if len < kNewVersionsEncodedLength then
      { status := Status.corruption "input is too short to be an sstable",
        footer := f1, rest := input }
    else
      let input1 := input.drop (len - kNewVersionsEncodedLength)
      match getVarint32 input1 with
      | none =>
        { status := Status.corruption "bad checksum type", footer := f1, rest := input1 }
      | some (chksum, input2) =>
        footerDecodeHandles { f1 with checksum := chksum % 256 } input2

/-! ## ReadBlockContext::OnReadBlockComplete (table/format.cc lines 322-371)

The CRC32C and XXH32 kernels live outside src, so the completion handler is
parametrized by them: `crcF bytes` models `crc32c::Value(data, len)` on
those bytes, `xxhF bytes seed` models `XXH32(data, len, seed)`. -/

/-- Model of `ReadBlockContext::OnReadBlockComplete`: propagate a failed read;
reject a short read as `Corruption("truncated block read")`; when
`verify_checksums` is set, read the stored little-endian checksum at
`data + n + 1`, dispatch on the checksum kind (CRC32C unmaskes the stored
value and compares the CRC of the first `n + 1` bytes; XXH32 compares the
seed-0 hash of the first `n + 1` bytes raw; anything else is
`Corruption("unknown checksum type")`), and report a failed comparison as
`Corruption("block checksum mismatch")`. -/
def onReadBlockCompleteModel (crcF : List Nat → Nat) (xxhF : List Nat → Nat → Nat)
    (checksumType : Nat) (verifyChecksums : Bool) (status : Status)
    (requested : Nat) (slice : List Nat) : Status :=
  if status.code ≠ StatusCode.kOk then status
  else if slice.length ≠ requested then Status.corruption "truncated block read"
  else
    let n := requested - kBlockTrailerSize
    if verifyChecksums then
      let value := decodeFixed32 (slice.drop (n + 1))
      if checksumType = kCRC32c then
        if crcF (slice.take (n + 1)) = crc32cUnmask value then Status.okStatus
        else Status.corruption "block checksum mismatch"
      else if checksumType = kxxHash then
        if xxhF (slice.take (n + 1)) 0 = value then Status.okStatus
        else Status.corruption "block checksum mismatch"
      else Status.corruption "unknown checksum type"
    else Status.okStatus

/-! ## Decompressor (table/format.cc lines 619-746)

The codec libraries are external, so they are modelled as an environment of
abstract functions from the compressed payload to an optional uncompressed
output (`none` models "codec not built in" as well as corrupt input, the
two cases the source cannot distinguish). -/

/-- Block contents returned by the pipeline: the bytes, the `cachable`
flag, and the compression tag. -/
structure BlockContents where
  data : List Nat
  cachable : Bool
  compressionType : Nat
deriving DecidableEq, Repr

/-- Abstract compression codec collaborators.  Each function receives the
`n`-byte compressed payload; `snappyGetLength` models
`Snappy_GetUncompressedLength`. -/
structure CodecEnv where
  snappyGetLength : List Nat → Option Nat
  snappyUncompress : List Nat → Option (List Nat)
  zlib : List Nat → Option (List Nat)
  bzip2 : List Nat → Option (List Nat)
  lz4 : List Nat → Option (List Nat)
  lz4hc : List Nat → Option (List Nat)
  xpress : List Nat → Option (List Nat)
  zstd : List Nat → Option (List Nat)

/-- Model of `UncompressBlockContentsForCompressionType` (table/format.cc lines
619-729): dispatch on the compression tag over the first `n` bytes of
`data`; each codec failure produces the codec-specific corruption message
baked into the source, an unknown tag produces
`Corruption("bad block type")`, and success wraps the output in owned,
uncompressed `BlockContents`.  Statistics and timers are elided. -/
def uncompressForCompressionTypeModel (cenv : CodecEnv) (data : List Nat)
    (n : Nat) (tag : Nat) : Status × Option BlockContents :=
  let payload := data.take n
  if tag = 1 then
    match cenv.snappyGetLength payload with
    | none =>
      (Status.corruption "Snappy not supported or corrupted Snappy compressed block contents",
        none)
    | some _ =>
      match cenv.snappyUncompress payload with
      | none =>
        (Status.corruption "Snappy not supported or corrupted Snappy compressed block contents",
          none)
      | some out =>
        (Status.okStatus, some { data := out, cachable := true, compressionType := kNoCompression })
  else if tag = 2 then
    match cenv.zlib payload with
    | none =>
      (Status.corruption "Zlib not supported or corrupted Zlib compressed block contents", none)
    | some out =>
      (Status.okStatus, some { data := out, cachable := true, compressionType := kNoCompression })
  else if tag = 3 then
    match cenv.bzip2 payload with
    | none =>
      (Status.corruption "Bzip2 not supported or corrupted Bzip2 compressed block contents", none)
    | some out =>
      (Status.okStatus, some { data := out, cachable := true, compressionType := kNoCompression })
  else if tag = 4 then
    match cenv.lz4 payload with
    | none =>
      (Status.corruption "LZ4 not supported or corrupted LZ4 compressed block contents", none)
    | some out =>
      (Status.okStatus, some { data := out, cachable := true, compressionType := kNoCompression })
  else if tag = 5 then
    match cenv.lz4hc payload with
    | none =>
      (Status.corruption "LZ4HC not supported or corrupted LZ4HC compressed block contents", none)
    | some out =>
      (Status.okStatus, some { data := out, cachable := true, compressionType := kNoCompression })
  else if tag = 6 then
    match cenv.xpress payload with
    | none =>
      (Status.corruption "XPRESS not supported or corrupted XPRESS compressed block contents",
        none)
    | some out =>
      (Status.okStatus, some { data := out, cachable := true, compressionType := kNoCompression })
  else if tag = 7 ∨ tag = 64 then
    match cenv.zstd payload with
    | none =>
      (Status.corruption "ZSTD not supported or corrupted ZSTD compressed block contents", none)
    | some out =>
      (Status.okStatus, some { data := out, cachable := true, compressionType := kNoCompression })
  else (Status.corruption "bad block type", none)

/-- Precondition asserted by `UncompressBlockContents` (table/format.cc
line 742): the tag byte after the payload is not `kNoCompression`. -/
def uncompressBlockContentsPre (data : List Nat) (n : Nat) : Prop :=
  data.getD n 0 ≠ kNoCompression

/-- Model of `UncompressBlockContents` (table/format.cc lines 738-746): dispatch on
the tag byte `data[n]`. -/
def uncompressBlockContents (cenv : CodecEnv) (data : List Nat) (n : Nat) :
    Status × Option BlockContents :=
  uncompressForCompressionTypeModel cenv data n (data.getD n 0)

/-! ## ReadBlockContentsContext (table/format.cc lines 408-617)

The persistent cache and the file reader are external collaborators,
modelled as environment records: the lookup results are the values the
cache produces for this handle, and the reader's behaviour is the
status/slice pair a positional read would return. -/

/-- Persistent cache collaborator for one handle: whether a cache is
configured, whether it is the compressed kind, and the outcomes of the two
lookups (`lookupUncompressedContents` is what `LookupUncompressedPage`
writes into `contents_` on success, `lookupRawData` the `n + 5`-byte buffer
`LookupRawPage` fills on success). -/
structure CacheEnv where
  configured : Bool
  isCompressed : Bool
  lookupUncompressedStatus : Status
  lookupUncompressedContents : BlockContents
  lookupRawStatus : Status
  lookupRawData : List Nat

/-- Result of `CheckPersistentCache`: the status, the `need_decompression`
out-parameter, the contents on an uncompressed-cache hit, and the heap
buffer on a raw-cache hit. -/
structure CpcResult where
  status : Status
  needDecompression : Bool
  contents : Option BlockContents
  heapBuf : List Nat
deriving Repr

/-- Model of `ReadBlockContentsContext::CheckPersistentCache` (table/format.cc lines
408-455): try the uncompressed cache first (hit clears
`need_decompression` and returns its contents); otherwise try the raw
cache when the cache is the compressed kind, else report `NotFound`.
Logging of non-NotFound errors is elided. -/
def checkPersistentCache (env : CacheEnv) : CpcResult :=
  if env.configured ∧ env.isCompressed = false then
    if env.lookupUncompressedStatus.code = StatusCode.kOk then
      { status := env.lookupUncompressedStatus, needDecompression := false,
        contents := some env.lookupUncompressedContents, heapBuf := [] }
    else
      { status := Status.notFound, needDecompression := true,
        contents := none, heapBuf := [] }
  else if env.configured ∧ env.isCompressed = true then
    if env.lookupRawStatus.code = StatusCode.kOk then
      { status := env.lookupRawStatus, needDecompression := true,
        contents := none, heapBuf := env.lookupRawData }
    else
      { status := env.lookupRawStatus, needDecompression := true,
        contents := none, heapBuf := [] }
  else
    { status := Status.notFound, needDecompression := true,
      contents := none, heapBuf := [] }

/-- Model of `ReadBlockContentsContext::OnReadBlockContentsComplete` (table/format.cc
lines 531-589), returning the final status, the produced contents, and
whether `UncompressBlockContents` was invoked.  When `is_read_block_` the
status first passes through `OnReadBlockComplete` (requested size
`n + kBlockTrailerSize`); the tag byte is `slice.data()[n]`; decompression
runs only when it was requested and the tag differs from `kNoCompression`;
otherwise the contents either borrow the reader-owned bytes
(`cachable = false`) or own a copy of the scratch/heap buffer
(`cachable = true`).  Persistent-cache insertions are side effects with no
bearing on the returned value and are elided. -/
def onReadBlockContentsCompleteModel (cenv : CodecEnv)
    (crcF : List Nat → Nat) (xxhF : List Nat → Nat → Nat)
    (checksumType : Nat) (verifyChecksums : Bool) (isReadBlock : Bool)
    (decompressionRequested : Bool) (n : Nat) (sliceIsUsedBuf : Bool)
    (sIn : Status) (slice : List Nat) : Status × Option BlockContents × Bool :=
  let status :=
    if isReadBlock then
      onReadBlockCompleteModel crcF xxhF checksumType verifyChecksums sIn
        (n + kBlockTrailerSize) slice
    else sIn
  if status.code ≠ StatusCode.kOk then (status, none, false)
  else
    let tag := slice.getD n 0
    if decompressionRequested ∧ tag ≠ kNoCompression then
      let u := uncompressBlockContents cenv slice n
      (u.1, u.2, true)
    else if sliceIsUsedBuf = false then
      (status, some { data := slice.take n, cachable := false, compressionType := tag }, false)
    else
      (status, some { data := slice.take n, cachable := true, compressionType := tag }, false)

/-- Environment of one synchronous `ReadContents` call: the cache
collaborator, the file reader's outcome (`readStatus`, `readSlice`, and
whether the returned slice aliases the supplied buffer), and the pipeline
parameters. -/
structure ReadContentsEnv where
  cache : CacheEnv
  readStatus : Status
  readSlice : List Nat
  sliceIsUsedBuf : Bool
  verifyChecksums : Bool
  checksumType : Nat
  decompressionRequested : Bool
  handleSize : Nat
  codecs : CodecEnv
  crcF : List Nat → Nat
  xxhF : List Nat → Nat → Nat

/-- Result of `ReadContents`: final status, produced contents, and the
instrumentation flags recording whether the file reader was invoked
(`ConstructReadBlockContext` + `Read`) and whether the decompressor was
invoked. -/
structure ReadContentsResult where
  status : Status
  contents : Option BlockContents
  readerInvoked : Bool
  uncompressCalled : Bool
deriving Repr

/-- Model of `ReadBlockContentsContext::ReadContents` (table/format.cc lines
499-529), the synchronous drive: probe the persistent cache; on an
uncompressed hit return it straight away; on a raw hit run the completion
handler over the cached buffer without touching the file; otherwise
construct the read-block context, issue the positional read, and run the
completion handler over its result. -/
def readContentsModel (env : ReadContentsEnv) : ReadContentsResult :=
  let cpc := checkPersistentCache env.cache
  if cpc.status.code = StatusCode.kOk then
    if cpc.needDecompression then
      let r := onReadBlockContentsCompleteModel env.codecs env.crcF env.xxhF
        env.checksumType env.verifyChecksums false env.decompressionRequested
        env.handleSize false cpc.status cpc.heapBuf
      { status := r.1, contents := r.2.1, readerInvoked := false,
        uncompressCalled := r.2.2 }
    else
      { status := cpc.status, contents := cpc.contents,
        readerInvoked := false, uncompressCalled := false }
  else
    let r := onReadBlockContentsCompleteModel env.codecs env.crcF env.xxhF
      env.checksumType env.verifyChecksums true env.decompressionRequested
      env.handleSize env.sliceIsUsedBuf env.readStatus env.readSlice
    { status := r.1, contents := r.2.1, readerInvoked := true,
      uncompressCalled := r.2.2 }

/-! ## Public Status constructions (include/rocksdb/status.h lines 90-184) -/

/-- The public `Status` construction helpers of `include/rocksdb/status.h`:
the default constructor, `OK()`, and for each code a message overload and a
`SubCode` overload, plus the dedicated `NoSpace` and `MemoryLimit`
helpers. -/
inductive PublicStatusCall where
  | defaultCtor
  | okCall
  | notFoundMsg (m1 m2 : String)
  | notFoundSub (sc : SubCode)
  | corruptionMsg (m1 m2 : String)
  | corruptionSub (sc : SubCode)
  | notSupportedMsg (m1 m2 : String)
  | notSupportedSub (sc : SubCode)
  | invalidArgumentMsg (m1 m2 : String)
  | invalidArgumentSub (sc : SubCode)
  | ioErrorMsg (m1 m2 : String)
  | ioErrorSub (sc : SubCode)
  | mergeInProgressMsg (m1 m2 : String)
  | mergeInProgressSub (sc : SubCode)
  | incompleteMsg (m1 m2 : String)
  | incompleteSub (sc : SubCode)
  | shutdownInProgressMsg (m1 m2 : String)
  | shutdownInProgressSub (sc : SubCode)
  | timedOutMsg (m1 m2 : String)
  | timedOutSub (sc : SubCode)
  | abortedMsg (m1 m2 : String)
  | abortedSub (sc : SubCode)
  | busyMsg (m1 m2 : String)
  | busySub (sc : SubCode)
  | expiredMsg (m1 m2 : String)
  | expiredSub (sc : SubCode)
  | tryAgainMsg (m1 m2 : String)
  | tryAgainSub (sc : SubCode)
  | ioPendingMsg (m1 m2 : String)
  | ioPendingSub (sc : SubCode)
  | noSpaceCall
  | noSpaceMsg (m1 m2 : String)
  | memoryLimitCall
  | memoryLimitMsg (m1 m2 : String)
deriving DecidableEq, Repr

/-- Message stored by the two-slice constructors (the exact join lives in
the missing `status.cc`; modelled from the spec as "optional message"). -/
def joinMsg (m1 m2 : String) : String :=
  if m2 = "" then m1 else m1 ++ ": " ++ m2

/-- A status with the given code, subcode `kNone`, and a two-part
message — `Status(Code, msg, msg2)`. -/
def Status.withMsg (c : StatusCode) (m1 m2 : String) : Status :=
  { code := c, subcode := .kNone, msg := some (joinMsg m1 m2), async := false }

/-- A status with the given code and subcode and no message —
`Status(Code, SubCode)`. -/
def Status.withSub (c : StatusCode) (sc : SubCode) : Status :=
  { code := c, subcode := sc, msg := none, async := false }

/-- Evaluate a public construction helper to the `Status` it returns. -/
def evalPublicStatusCall : PublicStatusCall → Status
  | .defaultCtor => Status.okStatus
  | .okCall => Status.okStatus
  | .notFoundMsg m1 m2 => Status.withMsg .kNotFound m1 m2
  | .notFoundSub sc => Status.withSub .kNotFound sc
  | .corruptionMsg m1 m2 => Status.withMsg .kCorruption m1 m2
  | .corruptionSub sc => Status.withSub .kCorruption sc
  | .notSupportedMsg m1 m2 => Status.withMsg .kNotSupported m1 m2
  | .notSupportedSub sc => Status.withSub .kNotSupported sc
  | .invalidArgumentMsg m1 m2 => Status.withMsg .kInvalidArgument m1 m2
  | .invalidArgumentSub sc => Status.withSub .kInvalidArgument sc
  | .ioErrorMsg m1 m2 => Status.withMsg .kIOError m1 m2
  | .ioErrorSub sc => Status.withSub .kIOError sc
  | .mergeInProgressMsg m1 m2 => Status.withMsg .kMergeInProgress m1 m2
  | .mergeInProgressSub sc => Status.withSub .kMergeInProgress sc
  | .incompleteMsg m1 m2 => Status.withMsg .kIncomplete m1 m2
  | .incompleteSub sc => Status.withSub .kIncomplete sc
  | .shutdownInProgressMsg m1 m2 => Status.withMsg .kShutdownInProgress m1 m2
  | .shutdownInProgressSub sc => Status.withSub .kShutdownInProgress sc
  | .timedOutMsg m1 m2 => Status.withMsg .kTimedOut m1 m2
  | .timedOutSub sc => Status.withSub .kTimedOut sc
  | .abortedMsg m1 m2 => Status.withMsg .kAborted m1 m2
  | .abortedSub sc => Status.withSub .kAborted sc
  | .busyMsg m1 m2 => Status.withMsg .kBusy m1 m2
  | .busySub sc => Status.withSub .kBusy sc
  | .expiredMsg m1 m2 => Status.withMsg .kExpired m1 m2
  | .expiredSub sc => Status.withSub .kExpired sc
  | .tryAgainMsg m1 m2 => Status.withMsg .kTryAgain m1 m2
  | .tryAgainSub sc => Status.withSub .kTryAgain sc
  | .ioPendingMsg m1 m2 => Status.withMsg .kIOPending m1 m2
  | .ioPendingSub sc => Status.withSub .kIOPending sc
  | .noSpaceCall => Status.withSub .kIOError .kNoSpace
  | .noSpaceMsg m1 m2 =>
    { code := .kIOError, subcode := .kNoSpace, msg := some (joinMsg m1 m2), async := false }
  | .memoryLimitCall => Status.withSub .kAborted .kMemoryLimit
  | .memoryLimitMsg m1 m2 =>
    { code := .kAborted, subcode := .kMemoryLimit, msg := some (joinMsg m1 m2), async := false }

/-- Whether a public helper takes an explicit `SubCode` argument chosen by
the caller. -/
def takesExplicitSubCode : PublicStatusCall → Bool
  | .notFoundSub _ | .corruptionSub _ | .notSupportedSub _ | .invalidArgumentSub _
  | .ioErrorSub _ | .mergeInProgressSub _ | .incompleteSub _ | .shutdownInProgressSub _
  | .timedOutSub _ | .abortedSub _ | .busySub _ | .expiredSub _ | .tryAgainSub _
  | .ioPendingSub _ => true
  | _ => false

/-! ## Codec lemmas -/

/-- A varint encoding is never empty. -/
lemma putVarint64_length_pos (v : Nat) : 1 ≤ (putVarint64 v).length := by
  rw [putVarint64]
  split <;> simp

/-- A value below `128 ^ k` encodes into at most `k` varint bytes. -/
lemma putVarint64_length_le : ∀ k v : Nat, v < 128 ^ k → 1 ≤ k →
    (putVarint64 v).length ≤ k := by
  intro k
  induction k with
  | zero => omega
  | succ k ih =>
    intro v hv _
    rw [putVarint64]
    split
    · simp
    · rename_i hv128
      have hk : 1 ≤ k := by
        by_contra hk0
        have : k = 0 := by omega
        subst this
        simp [pow_succ, pow_zero] at hv
        omega
      have hdiv : v / 128 < 128 ^ k := by
        rw [Nat.div_lt_iff_lt_mul (by norm_num : 0 < 128)]
        calc v < 128 ^ (k + 1) := hv
        _ = 128 ^ k * 128 := by rw [pow_succ]
      have := ih (v / 128) hdiv hk
      simpa using by omega

/-- Decoding the varint encoding of `v` at bit position `shift` with
accumulator `acc` succeeds and consumes exactly the encoded bytes, as long
as the encoding fits the 64-bit shift budget. -/
lemma getVarint64Aux_putVarint64 (v : Nat) :
    ∀ shift acc : Nat, ∀ rest : List Nat,
    7 * ((putVarint64 v).length - 1) + shift ≤ 63 →
    getVarint64Aux (putVarint64 v ++ rest) shift acc =
      some ((acc + v * 2 ^ shift) % 2 ^ 64, rest) := by
  induction v using Nat.strong_induction_on with
  | _ v ih =>
    intro shift acc rest hfit
    by_cases hv : v < 128
    · rw [putVarint64] at hfit ⊢
      simp only [hv, dif_pos] at hfit ⊢
      simp only [List.cons_append, List.nil_append, getVarint64Aux]
      have hsh : ¬ 63 < shift := by simp at hfit; omega
      have hb : ¬ 128 ≤ v := by omega
      simp [hsh, hb]
    · rw [putVarint64] at hfit ⊢
      simp only [hv, dif_neg, not_false_iff] at hfit ⊢
      simp only [List.cons_append, getVarint64Aux]
      have hlenrec := putVarint64_length_pos (v / 128)
      simp only [List.length_cons] at hfit
      have hsh : ¬ 63 < shift := by omega
      have hb : 128 ≤ v % 128 + 128 := by omega
      simp only [hsh, if_false, hb, if_true]
      have hfit2 : 7 * ((putVarint64 (v / 128)).length - 1) + (shift + 7) ≤ 63 := by
        omega
      rw [show (putVarint64 (v / 128)).append rest = putVarint64 (v / 128) ++ rest from rfl,
        ih (v / 128) (Nat.div_lt_self (by omega) (by omega)) (shift + 7)
        (acc + (v % 128 + 128) % 128 * 2 ^ shift) rest hfit2]
      congr 2
      have hmod : (v % 128 + 128) % 128 = v % 128 := by omega
      rw [hmod, pow_add]
      have : (2 : Nat) ^ 7 = 128 := by norm_num
      rw [this]
      have hsplit : v % 128 * 2 ^ shift + v / 128 * (2 ^ shift * 128) = v * 2 ^ shift := by
        have hv' : v % 128 + v / 128 * 128 = v := Nat.mod_add_div' v 128
        calc v % 128 * 2 ^ shift + v / 128 * (2 ^ shift * 128)
            = (v % 128 + v / 128 * 128) * 2 ^ shift := by ring
        _ = v * 2 ^ shift := by rw [hv']
      omega

/-- Varint round trip: decoding the encoding of any `v < 2 ^ 64` returns
`v` and consumes exactly the encoded bytes. -/
lemma getVarint64_putVarint64 (v : Nat) (hv : v < 2 ^ 64) (rest : List Nat) :
    getVarint64 (putVarint64 v ++ rest) = some (v, rest) := by
  have hlen : (putVarint64 v).length ≤ 10 := by
    apply putVarint64_length_le 10 v _ (by norm_num)
    calc v < 2 ^ 64 := hv
    _ ≤ 128 ^ 10 := by norm_num
  have := getVarint64Aux_putVarint64 v 0 0 rest (by omega)
  rw [getVarint64, this]
  simp only [zero_add, pow_zero, mul_one, Nat.mod_eq_of_lt hv]

/-- The little-endian 32-bit round trip. -/
lemma decodeFixed32_putFixed32 (v : Nat) (rest : List Nat) :
    decodeFixed32 (putFixed32 v ++ rest) = v % 2 ^ 32 := by
  simp only [putFixed32, decodeFixed32, List.cons_append, List.nil_append,
    List.getD_cons_zero, List.getD_cons_succ]
  omega

/-- The little-endian 32-bit round trip with nothing after the field. -/
lemma decodeFixed32_putFixed32_nil (v : Nat) :
    decodeFixed32 (putFixed32 v) = v % 2 ^ 32 := by
  have := decodeFixed32_putFixed32 v []
  simpa using this

/-! ## BlockHandle lemmas -/

/-- Decoding right after encoding restores the handle and leaves exactly
the trailing bytes. -/
lemma blockHandleDecodeFrom_encodeTo (h0 h : BlockHandle) (rest : List Nat)
    (ho : h.offset < 2 ^ 64) (hs : h.size < 2 ^ 64) :
    blockHandleDecodeFrom h0 (blockHandleEncodeTo h ++ rest) =
      (Status.okStatus, h, rest) := by
  simp only [blockHandleDecodeFrom, blockHandleEncodeTo, List.append_assoc,
    getVarint64_putVarint64 h.offset ho, getVarint64_putVarint64 h.size hs]

/-- Lemma: `BlockHandle::DecodeFrom` returns either success or exactly
`Corruption("bad block handle")`. -/
lemma blockHandleDecodeFrom_status_cases (h : BlockHandle) (input : List Nat) :
    (blockHandleDecodeFrom h input).1 = Status.okStatus ∨
    (blockHandleDecodeFrom h input).1 = Status.corruption "bad block handle" := by
  unfold blockHandleDecodeFrom
  cases hg : getVarint64 input with
  | none => simp
  | some p =>
    cases p with
    | mk o rest1 =>
      cases hg2 : getVarint64 rest1 with
      | none => simp [hg2]
      | some q => cases q; simp [hg2]

/-- On any failure, `BlockHandle::DecodeFrom` has reset the handle to
`(0, 0)` and produced `Corruption("bad block handle")`. -/
lemma blockHandleDecodeFrom_fail (h : BlockHandle) (input : List Nat)
    (hne : (blockHandleDecodeFrom h input).1.code ≠ StatusCode.kOk) :
    (blockHandleDecodeFrom h input).1 = Status.corruption "bad block handle" ∧
    (blockHandleDecodeFrom h input).2.1 = { offset := 0, size := 0 } := by
  unfold blockHandleDecodeFrom at hne ⊢
  cases hg : getVarint64 input with
  | none => simp
  | some p =>
    cases p with
    | mk o rest1 =>
      cases hg2 : getVarint64 rest1 with
      | none => simp [hg2]
      | some q =>
        exfalso
        apply hne
        cases q
        simp [hg, hg2, Status.okStatus]

/-- C5.  Block handle round-trip: for every pair `(offset, size)` with both
values below `2 ^ 64`, `BlockHandle::DecodeFrom` applied right after
`BlockHandle::EncodeTo` returns Ok with the same offset and size, and the
decode consumes exactly the bytes that the encode produced (everything
appended after the encoding is returned untouched). -/
theorem claim_c5_handle_round_trip (o s : Nat) (h0 : BlockHandle) (rest : List Nat)
    (ho : o < 2 ^ 64) (hs : s < 2 ^ 64) :
    blockHandleDecodeFrom h0 (blockHandleEncodeTo { offset := o, size := s } ++ rest) =
      (Status.okStatus, { offset := o, size := s }, rest) :=
  blockHandleDecodeFrom_encodeTo h0 { offset := o, size := s } rest ho hs

/-- Witness for C5 at a concrete handle whose offset needs a multi-byte
varint. -/
theorem claim_c5_witness :
    blockHandleDecodeFrom BlockHandle.uninit
        (blockHandleEncodeTo { offset := 300, size := 7 } ++ [9, 9]) =
      (Status.okStatus, { offset := 300, size := 7 }, [9, 9]) :=
  claim_c5_handle_round_trip 300 7 BlockHandle.uninit [9, 9] (by norm_num) (by norm_num)

/-! ## Footer round-trip lemmas -/

/-- Varint encodings of 64-bit values take at most 10 bytes. -/
lemma putVarint64_le_ten (v : Nat) (hv : v < 2 ^ 64) :
    (putVarint64 v).length ≤ 10 :=
  putVarint64_length_le 10 v (lt_of_lt_of_le hv (by norm_num)) (by norm_num)

/-- Handle encodings of in-range handles take at most 20 bytes. -/
lemma blockHandleEncodeTo_length_le (h : BlockHandle)
    (ho : h.offset < 2 ^ 64) (hs : h.size < 2 ^ 64) :
    (blockHandleEncodeTo h).length ≤ kMaxEncodedLength := by
  have h1 := putVarint64_le_ten h.offset ho
  have h2 := putVarint64_le_ten h.size hs
  simp only [blockHandleEncodeTo, List.length_append, kMaxEncodedLength]
  omega

/-- Resizing a list that is not longer than the target just pads it. -/
lemma listResize_eq_append (l : List Nat) (t : Nat) (h : l.length ≤ t) :
    listResize l t = l ++ List.replicate (t - l.length) 0 := by
  simp [listResize, List.take_of_length_le h]

/-- Resizing to a target at least the current length yields that target
length. -/
lemma listResize_length_of_le (l : List Nat) (t : Nat) (h : l.length ≤ t) :
    (listResize l t).length = t := by
  rw [listResize_eq_append l t h]
  simp
  omega

/-- Dropping the length of a left factor of an append leaves the right
factor. -/
lemma drop_append_eq_right {α : Type} (a b : List α) (k : Nat)
    (h : a.length = k) : (a ++ b).drop k = b := by
  subst h
  simpa using List.drop_left a b

/-- C2.  Legacy footer round-trip with upconversion: for every valid footer
with a legacy magic number, version 0, CRC32C checksum and initialized
(in-range) metaindex and index handles, `Footer::EncodeTo` appends exactly
48 bytes, and `Footer::DecodeFrom` applied to that encoding yields the same
metaindex handle, the same index handle, version 0, checksum CRC32C, and
the table magic number silently upconverted to the corresponding current
magic. -/
theorem claim_c2_legacy_footer_round_trip
    (mo ms io is2 magic : Nat)
    (hmo : mo < 2 ^ 64) (hms : ms < 2 ^ 64) (hio : io < 2 ^ 64) (his : is2 < 2 ^ 64)
    (hmagic : magic = kLegacyBlockBasedTableMagicNumber ∨
      magic = kLegacyPlainTableMagicNumber) :
    (footerEncodeTo
        { version := 0, checksum := kCRC32c,
          metaindexHandle := { offset := mo, size := ms },
          indexHandle := { offset := io, size := is2 },
          tableMagicNumber := magic }).length = 48 ∧
    footerDecodeFrom Footer.uninit
        (footerEncodeTo
          { version := 0, checksum := kCRC32c,
            metaindexHandle := { offset := mo, size := ms },
            indexHandle := { offset := io, size := is2 },
            tableMagicNumber := magic }) =
      { status := Status.okStatus,
        footer :=
          { version := 0, checksum := kCRC32c,
            metaindexHandle := { offset := mo, size := ms },
            indexHandle := { offset := io, size := is2 },
            tableMagicNumber := upconvertLegacyFooterFormat magic },
        rest := [] } := by
  have h32 : (2 : Nat) ^ 32 = 4294967296 := by norm_num
  have hleg : isLegacyFooterFormat magic = true := by
    rcases hmagic with h | h <;> simp [isLegacyFooterFormat, h]
  have hmlt : magic < 2 ^ 64 := by
    rcases hmagic with h | h <;> subst h <;>
      norm_num [kLegacyBlockBasedTableMagicNumber, kLegacyPlainTableMagicNumber]
  have hb1 : (blockHandleEncodeTo { offset := mo, size := ms }).length ≤ 20 :=
    blockHandleEncodeTo_length_le _ hmo hms
  have hb2 : (blockHandleEncodeTo { offset := io, size := is2 }).length ≤ 20 :=
    blockHandleEncodeTo_length_le _ hio his
  have hhm : (blockHandleEncodeTo { offset := mo, size := ms } ++
      blockHandleEncodeTo { offset := io, size := is2 }).length ≤ 40 := by
    simp only [List.length_append]
    omega
  have henc : footerEncodeTo
      { version := 0, checksum := kCRC32c,
        metaindexHandle := { offset := mo, size := ms },
        indexHandle := { offset := io, size := is2 },
        tableMagicNumber := magic } =
      ((blockHandleEncodeTo { offset := mo, size := ms } ++
          blockHandleEncodeTo { offset := io, size := is2 }) ++
        List.replicate (40 - (blockHandleEncodeTo { offset := mo, size := ms } ++
          blockHandleEncodeTo { offset := io, size := is2 }).length) 0) ++
      (putFixed32 (magic % 2 ^ 32) ++ putFixed32 (magic / 2 ^ 32 % 2 ^ 32)) := by
    simp only [footerEncodeTo, hleg, if_true, kMaxEncodedLength]
    rw [listResize_eq_append _ _ (by simpa using hhm)]
    simp [List.append_assoc]
  have hPlen : ((blockHandleEncodeTo { offset := mo, size := ms } ++
      blockHandleEncodeTo { offset := io, size := is2 }) ++
      List.replicate (40 - (blockHandleEncodeTo { offset := mo, size := ms } ++
        blockHandleEncodeTo { offset := io, size := is2 }).length) 0).length = 40 := by
    simp only [List.length_append, List.length_replicate]
    omega
  have hElen : (footerEncodeTo
      { version := 0, checksum := kCRC32c,
        metaindexHandle := { offset := mo, size := ms },
        indexHandle := { offset := io, size := is2 },
        tableMagicNumber := magic }).length = 48 := by
    rw [henc]
    simp only [List.length_append, List.length_replicate, putFixed32,
      List.length_cons, List.length_nil]
    omega
  refine ⟨hElen, ?_⟩
  have hdrop40 : (footerEncodeTo
      { version := 0, checksum := kCRC32c,
        metaindexHandle := { offset := mo, size := ms },
        indexHandle := { offset := io, size := is2 },
        tableMagicNumber := magic }).drop 40 =
      putFixed32 (magic % 2 ^ 32) ++ putFixed32 (magic / 2 ^ 32 % 2 ^ 32) := by
    rw [henc, drop_append_eq_right _ _ 40 hPlen]
  have hdrop44 : (footerEncodeTo
      { version := 0, checksum := kCRC32c,
        metaindexHandle := { offset := mo, size := ms },
        indexHandle := { offset := io, size := is2 },
        tableMagicNumber := magic }).drop 44 =
      putFixed32 (magic / 2 ^ 32 % 2 ^ 32) := by
    rw [henc, ← List.append_assoc,
      drop_append_eq_right _ _ 44
        (by simp only [List.length_append, List.length_replicate, putFixed32,
              List.length_cons, List.length_nil]
            omega)]
  have hraw : footerRawMagic (footerEncodeTo
      { version := 0, checksum := kCRC32c,
        metaindexHandle := { offset := mo, size := ms },
        indexHandle := { offset := io, size := is2 },
        tableMagicNumber := magic }) = magic := by
    rw [footerRawMagic, hElen]
    rw [show kMagicNumberLengthByte = 8 from rfl]
    rw [show (48 : Nat) - 4 = 44 from by norm_num,
      show (48 : Nat) - 8 = 40 from by norm_num]
    rw [hdrop40, hdrop44, decodeFixed32_putFixed32, decodeFixed32_putFixed32_nil]
    have h64 : (2 : Nat) ^ 64 = 18446744073709551616 := by norm_num
    rw [h32]
    rw [h64] at hmlt
    omega
  have hwire : footerWireMagic (footerEncodeTo
      { version := 0, checksum := kCRC32c,
        metaindexHandle := { offset := mo, size := ms },
        indexHandle := { offset := io, size := is2 },
        tableMagicNumber := magic }) = upconvertLegacyFooterFormat magic := by
    rw [footerWireMagic, hraw, hleg]
    simp
  have hEsplit : footerEncodeTo
      { version := 0, checksum := kCRC32c,
        metaindexHandle := { offset := mo, size := ms },
        indexHandle := { offset := io, size := is2 },
        tableMagicNumber := magic } =
      blockHandleEncodeTo { offset := mo, size := ms } ++
        (blockHandleEncodeTo { offset := io, size := is2 } ++
          (List.replicate (40 - (blockHandleEncodeTo { offset := mo, size := ms } ++
              blockHandleEncodeTo { offset := io, size := is2 }).length) 0 ++
            (putFixed32 (magic % 2 ^ 32) ++ putFixed32 (magic / 2 ^ 32 % 2 ^ 32)))) := by
    rw [henc]
    simp [List.append_assoc]
  simp only [footerDecodeFrom, hraw, hleg, if_true, hwire, hElen]
  rw [show (48 : Nat) - kVersion0EncodedLength = 0 from rfl, List.drop_zero]
  simp only [footerDecodeHandles]
  rw [hEsplit, blockHandleDecodeFrom_encodeTo _ { offset := mo, size := ms } _ hmo hms]
  simp only [Status.okStatus, if_true]
  rw [blockHandleDecodeFrom_encodeTo _ { offset := io, size := is2 } _ hio his]
  simp [Status.okStatus]

/-- Witness for C2 at a concrete legacy block-based footer. -/
theorem claim_c2_witness :
    (footerEncodeTo
        { version := 0, checksum := kCRC32c,
          metaindexHandle := { offset := 3, size := 300 },
          indexHandle := { offset := 12345, size := 0 },
          tableMagicNumber := kLegacyBlockBasedTableMagicNumber }).length = 48 ∧
    footerDecodeFrom Footer.uninit
        (footerEncodeTo
          { version := 0, checksum := kCRC32c,
            metaindexHandle := { offset := 3, size := 300 },
            indexHandle := { offset := 12345, size := 0 },
            tableMagicNumber := kLegacyBlockBasedTableMagicNumber }) =
      { status := Status.okStatus,
        footer :=
          { version := 0, checksum := kCRC32c,
            metaindexHandle := { offset := 3, size := 300 },
            indexHandle := { offset := 12345, size := 0 },
            tableMagicNumber :=
              upconvertLegacyFooterFormat kLegacyBlockBasedTableMagicNumber },
        rest := [] } :=
  claim_c2_legacy_footer_round_trip 3 300 12345 0 kLegacyBlockBasedTableMagicNumber
    (by norm_num) (by norm_num) (by norm_num) (by norm_num) (Or.inl rfl)

/-! ## Checksum verification claims -/

/-- C1.  Block checksum verification in
`ReadBlockContext::OnReadBlockComplete`: for every block read with
`verify_checksums = true` and payload length `n`, the checksum is computed
over exactly the first `n + 1` bytes (payload plus the compression tag) —
the statement quantifies over every possible CRC32C/XXH32 kernel, so the
hashed range is pinned exactly — and never over the stored checksum bytes;
for CRC32C the computed value is compared against the unmasked stored
little-endian u32 at `data[n+1..n+5]`, for XXH32 the seed-0 hash is
compared against the stored value raw; any other checksum kind yields
`Corruption("unknown checksum type")`, and an unequal comparison yields
`Corruption("block checksum mismatch")`. -/
theorem claim_c1_checksum_verification
    (crcF : List Nat → Nat) (xxhF : List Nat → Nat → Nat)
    (ct n : Nat) (data : List Nat) (hlen : data.length = n + kBlockTrailerSize) :
    (ct = kCRC32c →
      onReadBlockCompleteModel crcF xxhF ct true Status.okStatus
          (n + kBlockTrailerSize) data =
        (if crcF (data.take (n + 1)) = crc32cUnmask (decodeFixed32 (data.drop (n + 1)))
          then Status.okStatus else Status.corruption "block checksum mismatch")) ∧
    (ct = kxxHash →
      onReadBlockCompleteModel crcF xxhF ct true Status.okStatus
          (n + kBlockTrailerSize) data =
        (if xxhF (data.take (n + 1)) 0 = decodeFixed32 (data.drop (n + 1))
          then Status.okStatus else Status.corruption "block checksum mismatch")) ∧
    (ct ≠ kCRC32c → ct ≠ kxxHash →
      onReadBlockCompleteModel crcF xxhF ct true Status.okStatus
          (n + kBlockTrailerSize) data =
        Status.corruption "unknown checksum type") := by
  refine ⟨?_, ?_, ?_⟩
  · intro hct
    subst hct
    simp [onReadBlockCompleteModel, hlen, kBlockTrailerSize, Status.okStatus]
  · intro hct
    subst hct
    simp [onReadBlockCompleteModel, hlen, kBlockTrailerSize, Status.okStatus,
      kCRC32c, kxxHash]
  · intro hct1 hct2
    simp [onReadBlockCompleteModel, hlen, kBlockTrailerSize, Status.okStatus,
      hct1, hct2]

/-- Witness for C1 with a length-counting stand-in hash kernel and a
5-byte block (empty payload). -/
theorem claim_c1_witness :
    onReadBlockCompleteModel (fun l => l.length) (fun l s => l.length + s)
        kCRC32c true Status.okStatus (0 + kBlockTrailerSize) [7, 1, 0, 0, 0] =
      (if (fun (l : List Nat) => l.length) ([7, 1, 0, 0, 0].take (0 + 1)) =
          crc32cUnmask (decodeFixed32 ([7, 1, 0, 0, 0].drop (0 + 1)))
        then Status.okStatus else Status.corruption "block checksum mismatch") :=
  (claim_c1_checksum_verification (fun l => l.length) (fun l s => l.length + s)
    kCRC32c 0 [7, 1, 0, 0, 0] (by decide)).1 rfl

/-- C9.  When `verify_checksums = false`, the stored checksum bytes are
never inspected: two block reads of the same length that agree on the
payload and tag byte (so they can differ only in the 4 stored checksum
bytes) complete with the identical status — Ok, since the read returned
the requested `n + 5` bytes — and the identical payload, so a corrupt
checksum is silently accepted. -/
theorem claim_c9_checksum_ignored_without_verify
    (crcF : List Nat → Nat) (xxhF : List Nat → Nat → Nat) (ct n : Nat)
    (d1 d2 : List Nat)
    (h1 : d1.length = n + kBlockTrailerSize) (h2 : d2.length = n + kBlockTrailerSize)
    (hagree : d1.take (n + 1) = d2.take (n + 1)) :
    onReadBlockCompleteModel crcF xxhF ct false Status.okStatus
        (n + kBlockTrailerSize) d1 =
      onReadBlockCompleteModel crcF xxhF ct false Status.okStatus
        (n + kBlockTrailerSize) d2 ∧
    onReadBlockCompleteModel crcF xxhF ct false Status.okStatus
        (n + kBlockTrailerSize) d1 = Status.okStatus ∧
    d1.take n = d2.take n := by
  refine ⟨?_, ?_, ?_⟩
  · simp [onReadBlockCompleteModel, h1, h2, Status.okStatus]
  · simp [onReadBlockCompleteModel, h1, Status.okStatus]
  · have hmin : min n (n + 1) = n := by omega
    calc d1.take n = (d1.take (n + 1)).take n := by rw [List.take_take, hmin]
    _ = (d2.take (n + 1)).take n := by rw [hagree]
    _ = d2.take n := by rw [List.take_take, hmin]

/-- Witness for C9: two 5-byte blocks differing only in the stored
checksum bytes. -/
theorem claim_c9_witness :
    onReadBlockCompleteModel (fun l => l.length) (fun l s => l.length + s)
        kCRC32c false Status.okStatus (0 + kBlockTrailerSize) [7, 1, 2, 3, 4] =
      onReadBlockCompleteModel (fun l => l.length) (fun l s => l.length + s)
        kCRC32c false Status.okStatus (0 + kBlockTrailerSize) [7, 5, 6, 7, 8] ∧
    onReadBlockCompleteModel (fun l => l.length) (fun l s => l.length + s)
        kCRC32c false Status.okStatus (0 + kBlockTrailerSize) [7, 1, 2, 3, 4] =
      Status.okStatus ∧
    [7, 1, 2, 3, 4].take 0 = ([7, 5, 6, 7, 8] : List Nat).take 0 :=
  claim_c9_checksum_ignored_without_verify (fun l => l.length)
    (fun l s => l.length + s) kCRC32c 0 [7, 1, 2, 3, 4] [7, 5, 6, 7, 8]
    (by decide) (by decide) (by decide)

/-! ## Decode-failure atomicity (C4) -/

/-- The handle-decoding tail never touches the magic number field. -/
lemma footerDecodeHandles_magic (f : Footer) (input : List Nat) :
    (footerDecodeHandles f input).footer.tableMagicNumber = f.tableMagicNumber := by
  simp only [footerDecodeHandles]
  split_ifs <;> rfl

/-- On a handle-decoding failure, the index handle is either untouched or
reset to `(0, 0)`. -/
lemma footerDecodeHandles_fail_index (f : Footer) (input : List Nat)
    (hne : (footerDecodeHandles f input).status.code ≠ StatusCode.kOk) :
    (footerDecodeHandles f input).footer.indexHandle = f.indexHandle ∨
    (footerDecodeHandles f input).footer.indexHandle = { offset := 0, size := 0 } := by
  simp only [footerDecodeHandles] at hne ⊢
  split_ifs at hne ⊢ with h1 h2
  · exact absurd h2 hne
  · right
    have hfail := blockHandleDecodeFrom_fail f.indexHandle
      (blockHandleDecodeFrom f.metaindexHandle input).2.2 (by simpa using h2)
    simpa using hfail.2
  · left
    rfl

/-- Every branch of `Footer::DecodeFrom` stores the (upconverted) wire
magic into the footer before it can fail. -/
lemma footerDecodeFrom_magic (f : Footer) (input : List Nat) :
    (footerDecodeFrom f input).footer.tableMagicNumber = footerWireMagic input := by
  simp only [footerDecodeFrom]
  split_ifs with h1 h2
  · rw [footerDecodeHandles_magic]
  · rfl
  · rcases hg : getVarint32 (input.drop (input.length - kNewVersionsEncodedLength)) with
      _ | ⟨chksum, input2⟩
    · simp [hg]
    · simp [hg, footerDecodeHandles_magic]

/-- On any failure of `Footer::DecodeFrom`, the index handle is either
untouched or reset to `(0, 0)`. -/
lemma footerDecodeFrom_fail_index (f : Footer) (input : List Nat)
    (hne : (footerDecodeFrom f input).status.code ≠ StatusCode.kOk) :
    (footerDecodeFrom f input).footer.indexHandle = f.indexHandle ∨
    (footerDecodeFrom f input).footer.indexHandle = { offset := 0, size := 0 } := by
  simp only [footerDecodeFrom] at hne ⊢
  split_ifs at hne ⊢ with h1 h2
  · exact footerDecodeHandles_fail_index _ _ hne
  · left
    rfl
  · rcases hg : getVarint32 (input.drop (input.length - kNewVersionsEncodedLength)) with
      _ | ⟨chksum, input2⟩
    · left
      simp [hg]
    · simp only [hg] at hne ⊢
      exact footerDecodeHandles_fail_index _ _ hne

/-- Counterexample to C4 as stated: a 53-byte tail whose checksum-kind
varint overflows (five continuation bytes) under a non-legacy magic.
`Footer::DecodeFrom` fails with `Corruption("bad checksum type")`, yet the
footer is not left fully uninitialized — the decoded magic number (1) has
been stored. -/
theorem claim_c4_counterexample :
    (footerDecodeFrom Footer.uninit
        (List.replicate 5 255 ++ (List.replicate 40 0 ++ [1, 0, 0, 0, 0, 0, 0, 0]))).status =
      Status.corruption "bad checksum type" ∧
    (footerDecodeFrom Footer.uninit
        (List.replicate 5 255 ++ (List.replicate 40 0 ++ [1, 0, 0, 0, 0, 0, 0, 0]))).footer ≠
      Footer.uninit ∧
    (footerDecodeFrom Footer.uninit
        (List.replicate 5 255 ++
          (List.replicate 40 0 ++ [1, 0, 0, 0, 0, 0, 0, 0]))).footer.tableMagicNumber = 1 := by
  refine ⟨by decide, by decide, by decide⟩

/-- C4 as amended.  `BlockHandle::DecodeFrom` is atomic exactly as claimed:
any failure resets the handle to `(0, 0)` and returns
`Corruption("bad block handle")`.  `Footer::DecodeFrom`, however, does
expose partially decoded state on failure: the (upconverted) wire magic is
always stored in the footer before any failure return; what holds of the
handles is only that the index handle is either untouched or reset to
`(0, 0)`. -/
theorem claim_c4_amended_decode_failure_state :
    (∀ (h : BlockHandle) (input : List Nat),
      (blockHandleDecodeFrom h input).1.code ≠ StatusCode.kOk →
        (blockHandleDecodeFrom h input).1 = Status.corruption "bad block handle" ∧
        (blockHandleDecodeFrom h input).2.1 = { offset := 0, size := 0 }) ∧
    (∀ (f : Footer) (input : List Nat),
      (footerDecodeFrom f input).status.code ≠ StatusCode.kOk →
        (footerDecodeFrom f input).footer.tableMagicNumber = footerWireMagic input ∧
        ((footerDecodeFrom f input).footer.indexHandle = f.indexHandle ∨
          (footerDecodeFrom f input).footer.indexHandle = { offset := 0, size := 0 })) :=
  ⟨fun h input hne => blockHandleDecodeFrom_fail h input hne,
   fun f input hne => ⟨footerDecodeFrom_magic f input,
    footerDecodeFrom_fail_index f input hne⟩⟩

/-- Witness for the amended C4, at a failing handle decode (one dangling
continuation byte) and the failing footer tail of the counterexample. -/
theorem claim_c4_witness :
    (blockHandleDecodeFrom { offset := 5, size := 6 } [200]).1 =
        Status.corruption "bad block handle" ∧
      (blockHandleDecodeFrom { offset := 5, size := 6 } [200]).2.1 =
        { offset := 0, size := 0 } ∧
      (footerDecodeFrom Footer.uninit
          (List.replicate 5 255 ++
            (List.replicate 40 0 ++ [1, 0, 0, 0, 0, 0, 0, 0]))).footer.tableMagicNumber =
        footerWireMagic
          (List.replicate 5 255 ++ (List.replicate 40 0 ++ [1, 0, 0, 0, 0, 0, 0, 0])) := by
  refine ⟨(claim_c4_amended_decode_failure_state.1 { offset := 5, size := 6 } [200]
      (by decide)).1,
    (claim_c4_amended_decode_failure_state.1 { offset := 5, size := 6 } [200]
      (by decide)).2,
    (claim_c4_amended_decode_failure_state.2 Footer.uninit
      (List.replicate 5 255 ++ (List.replicate 40 0 ++ [1, 0, 0, 0, 0, 0, 0, 0]))
      (by decide)).1⟩

/-! ## Unreachability of the too-short branch (C8) -/

/-- The handle-decoding tail only ever reports success or
`Corruption("bad block handle")`. -/
lemma footerDecodeHandles_status_cases (f : Footer) (input : List Nat) :
    (footerDecodeHandles f input).status = Status.okStatus ∨
    (footerDecodeHandles f input).status = Status.corruption "bad block handle" := by
  simp only [footerDecodeHandles]
  split_ifs with h1 h2
  · exact blockHandleDecodeFrom_status_cases _ _
  · exact blockHandleDecodeFrom_status_cases _ _
  · exact blockHandleDecodeFrom_status_cases _ _

/-- C8.  Under `Footer::DecodeFrom`'s stated precondition that the input
slice is at least `kMinEncodedLength` bytes, the
`Corruption("input is too short to be an sstable")` branch of the
non-legacy path is unreachable: `kMinEncodedLength` equals the
current-format encoded length (53 bytes, `kNewVersionsEncodedLength`), so
the guarding length test can never be true and no input of at least
`kMinEncodedLength` bytes ever produces that status. -/
theorem claim_c8_too_short_branch_unreachable :
    kMinEncodedLength = kNewVersionsEncodedLength ∧
    ∀ (f : Footer) (input : List Nat), kMinEncodedLength ≤ input.length →
      (footerDecodeFrom f input).status ≠
        Status.corruption "input is too short to be an sstable" := by
  refine ⟨rfl, ?_⟩
  intro f input hlen
  have hlen53 : 53 ≤ input.length := hlen
  simp only [footerDecodeFrom]
  split_ifs with h1 h2
  · have hcases := footerDecodeHandles_status_cases
      ({ f with tableMagicNumber := footerWireMagic input,
                version := 0,
                checksum := kCRC32c })
      (input.drop (input.length - kVersion0EncodedLength))
    rcases hcases with h | h <;> rw [h] <;> decide
  · exfalso
    have h53 : kNewVersionsEncodedLength = 53 := rfl
    rw [h53] at h2
    omega
  · rcases hg : getVarint32 (input.drop (input.length - kNewVersionsEncodedLength)) with
      _ | ⟨chksum, input2⟩
    · simp only [hg]
      decide
    · simp only [hg]
      have hcases := footerDecodeHandles_status_cases
        ({ f with tableMagicNumber := footerWireMagic input,
                  version := decodeFixed32 (input.drop (input.length - 12)),
                  checksum := chksum % 256 })
        input2
      rcases hcases with h | h <;> rw [h] <;> decide

/-- Witness for C8 at the concrete 53-byte failing-checksum tail (which
exercises the non-legacy path without ever producing the too-short
status). -/
theorem claim_c8_witness :
    kMinEncodedLength = kNewVersionsEncodedLength ∧
    (footerDecodeFrom Footer.uninit
        (List.replicate 5 255 ++ (List.replicate 40 0 ++ [1, 0, 0, 0, 0, 0, 0, 0]))).status ≠
      Status.corruption "input is too short to be an sstable" :=
  ⟨claim_c8_too_short_branch_unreachable.1,
    claim_c8_too_short_branch_unreachable.2 Footer.uninit
      (List.replicate 5 255 ++ (List.replicate 40 0 ++ [1, 0, 0, 0, 0, 0, 0, 0]))
      (by decide)⟩

/-! ## Cache-hit bypass (C3) and decompression precondition (C10) -/

/-- C3.  Uncompressed persistent-cache hit bypasses disk: whenever a
persistent non-compressed cache is configured and its lookup succeeds, the
synchronous `ReadContents` path returns that Ok status together with the
cached contents, the file reader is never invoked (the read-block context
instrumentation flag stays false, whatever the reader would have
returned), and no decompression happens. -/
theorem claim_c3_uncompressed_cache_hit_bypasses_disk (env : ReadContentsEnv)
    (hc : env.cache.configured = true) (hnc : env.cache.isCompressed = false)
    (hok : env.cache.lookupUncompressedStatus.code = StatusCode.kOk) :
    readContentsModel env =
      { status := env.cache.lookupUncompressedStatus,
        contents := some env.cache.lookupUncompressedContents,
        readerInvoked := false, uncompressCalled := false } ∧
    (readContentsModel env).status.code = StatusCode.kOk := by
  have hcpc : checkPersistentCache env.cache =
      { status := env.cache.lookupUncompressedStatus, needDecompression := false,
        contents := some env.cache.lookupUncompressedContents, heapBuf := [] } := by
    simp [checkPersistentCache, hc, hnc, hok]
  constructor
  · simp [readContentsModel, hcpc, hok]
  · simp [readContentsModel, hcpc, hok]

/-- An all-failing codec environment: every codec reports failure (not
built in, or corrupt input). -/
def failingCodecEnv : CodecEnv :=
  { snappyGetLength := fun _ => none, snappyUncompress := fun _ => none,
    zlib := fun _ => none, bzip2 := fun _ => none, lz4 := fun _ => none,
    lz4hc := fun _ => none, xpress := fun _ => none, zstd := fun _ => none }

/-- A concrete environment in which the uncompressed persistent cache hits
and the file reader would fail if consulted. -/
def cacheHitEnv : ReadContentsEnv :=
  { cache :=
      { configured := true, isCompressed := false,
        lookupUncompressedStatus := Status.okStatus,
        lookupUncompressedContents :=
          { data := [1, 2, 3], cachable := true, compressionType := 0 },
        lookupRawStatus := Status.notFound, lookupRawData := [] },
    readStatus := Status.corruption "reader must not run",
    readSlice := [], sliceIsUsedBuf := false, verifyChecksums := true,
    checksumType := kCRC32c, decompressionRequested := true, handleSize := 3,
    codecs := failingCodecEnv, crcF := fun _ => 0, xxhF := fun _ _ => 0 }

/-- Witness for C3 at `cacheHitEnv`. -/
theorem claim_c3_witness :
    readContentsModel cacheHitEnv =
      { status := Status.okStatus,
        contents := some { data := [1, 2, 3], cachable := true, compressionType := 0 },
        readerInvoked := false, uncompressCalled := false } ∧
    (readContentsModel cacheHitEnv).status.code = StatusCode.kOk :=
  claim_c3_uncompressed_cache_hit_bypasses_disk cacheHitEnv rfl rfl rfl

/-- C10.  `UncompressBlockContents` has the asserted precondition
`data[n] != kNoCompression`, and the read pipeline maintains it:
`OnReadBlockContentsComplete` invokes the decompressor only when
decompression was requested and the tag byte at position `n` differs from
`kNoCompression`, so neither that assertion nor the
`Invalid compression type` assertion in
`UncompressBlockContentsForCompressionType` (which receives the same tag)
can fire on any pipeline path. -/
theorem claim_c10_uncompress_precondition_maintained
    (cenv : CodecEnv) (crcF : List Nat → Nat) (xxhF : List Nat → Nat → Nat)
    (ct : Nat) (verify isRB decompReq : Bool) (n : Nat) (usedBuf : Bool)
    (sIn : Status) (slice : List Nat)
    (hcall : (onReadBlockContentsCompleteModel cenv crcF xxhF ct verify isRB
        decompReq n usedBuf sIn slice).2.2 = true) :
    decompReq = true ∧ uncompressBlockContentsPre slice n := by
  simp only [onReadBlockContentsCompleteModel] at hcall
  split_ifs at hcall <;>
    first
      | exact ⟨(‹decompReq = true ∧ slice.getD n 0 ≠ kNoCompression›).1,
          (‹decompReq = true ∧ slice.getD n 0 ≠ kNoCompression›).2⟩
      | simp at hcall

/-- Witness for C10: a raw-cache-style completion with an empty payload
and a Snappy tag byte actually reaches the decompressor, and the
precondition holds there. -/
theorem claim_c10_witness :
    true = true ∧ uncompressBlockContentsPre [1] 0 :=
  claim_c10_uncompress_precondition_maintained failingCodecEnv (fun _ => 0)
    (fun _ _ => 0) kCRC32c false false true 0 false Status.okStatus [1] rfl

/-! ## Decompressor error messages (C6) -/

/-- Whether the abstract codec environment fails on the given payload for
the given tag (unsupported tags always "fail": they never decompress). -/
def codecFailed (cenv : CodecEnv) (payload : List Nat) (tag : Nat) : Bool :=
  if tag = 1 then
    (cenv.snappyGetLength payload).isNone || (cenv.snappyUncompress payload).isNone
  else if tag = 2 then (cenv.zlib payload).isNone
  else if tag = 3 then (cenv.bzip2 payload).isNone
  else if tag = 4 then (cenv.lz4 payload).isNone
  else if tag = 5 then (cenv.lz4hc payload).isNone
  else if tag = 6 then (cenv.xpress payload).isNone
  else if tag = 7 ∨ tag = 64 then (cenv.zstd payload).isNone
  else true

/-- The corruption message the source produces for a failure at each tag:
note the spellings `Bzip2` (not `BZip2`) for the BZip2 tag and `ZSTD` for
both the ZSTD and ZSTDNotFinal tags, and `bad block type` for any tag
outside the supported set. -/
def codecFailMsg (tag : Nat) : String :=
  if tag = 1 then "Snappy not supported or corrupted Snappy compressed block contents"
  else if tag = 2 then "Zlib not supported or corrupted Zlib compressed block contents"
  else if tag = 3 then "Bzip2 not supported or corrupted Bzip2 compressed block contents"
  else if tag = 4 then "LZ4 not supported or corrupted LZ4 compressed block contents"
  else if tag = 5 then "LZ4HC not supported or corrupted LZ4HC compressed block contents"
  else if tag = 6 then "XPRESS not supported or corrupted XPRESS compressed block contents"
  else if tag = 7 ∨ tag = 64 then "ZSTD not supported or corrupted ZSTD compressed block contents"
  else "bad block type"

/-- Counterexample to C6 as stated: for the BZip2 tag the failure message
is spelled `Bzip2 ...`, not `BZip2 ...` as the codec's name would have it,
and for the ZSTDNotFinal tag it reads `ZSTD ...`, not `ZSTDNotFinal ...`. -/
theorem claim_c6_counterexample :
    (uncompressForCompressionTypeModel failingCodecEnv [] 0 3).1 =
      Status.corruption "Bzip2 not supported or corrupted Bzip2 compressed block contents" ∧
    (uncompressForCompressionTypeModel failingCodecEnv [] 0 3).1 ≠
      Status.corruption "BZip2 not supported or corrupted BZip2 compressed block contents" ∧
    (uncompressForCompressionTypeModel failingCodecEnv [] 0 64).1 ≠
      Status.corruption
        "ZSTDNotFinal not supported or corrupted ZSTDNotFinal compressed block contents" := by
  refine ⟨rfl, by decide, by decide⟩

/-- C6 as amended.  For every supported compression tag, when the codec is
not built in or the input is corrupt,
`UncompressBlockContentsForCompressionType` returns Corruption with
exactly the message `codecFailMsg` tabulates — `<Codec> not supported or
corrupted <Codec> compressed block contents` where `<Codec>` is `Snappy`,
`Zlib`, `Bzip2`, `LZ4`, `LZ4HC`, `XPRESS`, or `ZSTD` (the latter shared by
the ZSTD and ZSTDNotFinal tags) — and for every tag outside the supported
set it returns `Corruption("bad block type")`. -/
theorem claim_c6_amended_codec_error_messages
    (cenv : CodecEnv) (data : List Nat) (n : Nat) (tag : Nat)
    (hfail : codecFailed cenv (data.take n) tag = true) :
    uncompressForCompressionTypeModel cenv data n tag =
      (Status.corruption (codecFailMsg tag), none) := by
  simp only [uncompressForCompressionTypeModel, codecFailed, codecFailMsg] at hfail ⊢
  split_ifs at hfail ⊢ with h1 h2 h3 h4 h5 h6 h7
  · rcases hA : cenv.snappyGetLength (data.take n) with _ | len
    · simp [hA]
    · rcases hB : cenv.snappyUncompress (data.take n) with _ | out
      · simp [hA, hB]
      · simp [hA, hB] at hfail
  · rcases hA : cenv.zlib (data.take n) with _ | out
    · simp [hA]
    · simp [hA] at hfail
  · rcases hA : cenv.bzip2 (data.take n) with _ | out
    · simp [hA]
    · simp [hA] at hfail
  · rcases hA : cenv.lz4 (data.take n) with _ | out
    · simp [hA]
    · simp [hA] at hfail
  · rcases hA : cenv.lz4hc (data.take n) with _ | out
    · simp [hA]
    · simp [hA] at hfail
  · rcases hA : cenv.xpress (data.take n) with _ | out
    · simp [hA]
    · simp [hA] at hfail
  · rcases hA : cenv.zstd (data.take n) with _ | out
    · simp [hA]
    · simp [hA] at hfail
  · rfl

/-- Witness for the amended C6 at the BZip2 tag with an all-failing codec
environment. -/
theorem claim_c6_witness :
    uncompressForCompressionTypeModel failingCodecEnv [] 0 3 =
      (Status.corruption (codecFailMsg 3), none) :=
  claim_c6_amended_codec_error_messages failingCodecEnv [] 0 3 (by decide)

/-! ## Status subcode invariants (C7) -/

/-- Counterexample to C7 as stated: the public `SubCode` overload
`Status::NotFound(kNoSpace)` constructs a status whose subcode is NoSpace
but whose code is NotFound, not IOError. -/
theorem claim_c7_counterexample :
    (evalPublicStatusCall (PublicStatusCall.notFoundSub SubCode.kNoSpace)).subcode =
      SubCode.kNoSpace ∧
    (evalPublicStatusCall (PublicStatusCall.notFoundSub SubCode.kNoSpace)).code ≠
      StatusCode.kIOError := by
  decide

/-- C7 as amended.  For every public construction that does not pass an
explicit `SubCode` argument — in particular the dedicated `NoSpace` and
`MemoryLimit` helpers — a NoSpace subcode implies code IOError and a
MemoryLimit subcode implies code Aborted; the unrestricted claim fails
because every code's public `SubCode` overload accepts any subcode. -/
theorem claim_c7_amended_subcode_invariants (c : PublicStatusCall)
    (hc : takesExplicitSubCode c = false) :
    ((evalPublicStatusCall c).subcode = SubCode.kNoSpace →
      (evalPublicStatusCall c).code = StatusCode.kIOError) ∧
    ((evalPublicStatusCall c).subcode = SubCode.kMemoryLimit →
      (evalPublicStatusCall c).code = StatusCode.kAborted) := by
  cases c <;>
    simp_all [evalPublicStatusCall, takesExplicitSubCode, Status.withMsg,
      Status.withSub, Status.okStatus]

/-- Witness for the amended C7 at `Status::NoSpace()`. -/
theorem claim_c7_witness :
    ((evalPublicStatusCall PublicStatusCall.noSpaceCall).subcode = SubCode.kNoSpace →
      (evalPublicStatusCall PublicStatusCall.noSpaceCall).code = StatusCode.kIOError) ∧
    ((evalPublicStatusCall PublicStatusCall.noSpaceCall).subcode = SubCode.kMemoryLimit →
      (evalPublicStatusCall PublicStatusCall.noSpaceCall).code = StatusCode.kAborted) :=
  claim_c7_amended_subcode_invariants PublicStatusCall.noSpaceCall rfl

end RocksModel
